import Mathlib

/- Verification of the AIPM requirements-assistant application (src/app.py).

   The development shallowly embeds the Python module: the module-level
   Streamlit secrets check (lines 169-181), the orchestrator function
   get_ai_analysis (lines 138-161), and the post-upload UI flow
   (lines 185-219).  The external chat-completion provider is a parameter
   (an oracle of type ProviderCall); Python exceptions raised by the
   provider are modelled as the Except.error branch carrying str(e).
   Streamlit observables (st.error, st.success, st.markdown,
   st.download_button, st.stop) are recorded in explicit result records. -/

namespace AIPM

/-- The full system prompt constant of app.py lines 16-135 (the persona
text sent as the system message of every request). -/
def HYPER_DETAILED_PROMPT : String :=
  "\n" ++
  "**Persona:**\n" ++
  "You are a world-class Principal Product Manager. You are working with the transcript of a product strategy meeting for the \"Lighthouse\" platform. Your task is to transform this conversation into an exhaustive, multi-faceted requirements document. You must be incredibly detailed, inferring logical next steps from the conversation but explicitly stating that you are doing so. You must not invent features that were not discussed.\n" ++
  "\n" ++
  "**Primary Directive:**\n" ++
  "Analyze the provided transcript and generate a comprehensive software requirements document. The document must be meticulously formatted with Markdown for clarity and structured into three main sections: UI/UX Design, Development, and Quality Assurance. Be exhaustive in each section.\n" ++
  "\n" ++
  "**Output Format:**\n" ++
  "The entire output must be a single, well-formatted text document. Use Markdown headings (`###`), bold text, bullet points, and code blocks for clarity.\n" ++
  "\n" ++
  "---\n" ++
  "# Lighthouse Platform: New Feature Analysis & Requirements\n" ++
  "---\n" ++
  "\n" ++
  "## 1. Executive Summary\n" ++
  "- **Feature Name:** [Provide a clear, concise name for the feature or module]\n" ++
  "- **Core User Problem:** [Summarize the user problem this feature solves, based on the transcript]\n" ++
  "- **Agreed-Upon Solution:** [Briefly describe the final, agreed-upon solution from the conversation]\n" ++
  "\n" ++
  "---\n" ++
  "## 2. UI/UX Design Tasks & User Flow\n" ++
  "This section is for the UI/UX design team to create wireframes and mockups.\n" ++
  "\n" ++
  "### ### User Flow\n" ++
  "Describe the step-by-step journey the user will take to interact with this feature.\n" ++
  "- **1. Entry Point:** [Where does the user start? e.g., Dashboard, Settings Page]\n" ++
  "- **2. Step-by-Step Actions:** [List every click, input, and interaction until the goal is achieved]\n" ++
  "- **3. Success State:** [What does the user see when they have successfully completed the flow?]\n" ++
  "- **4. Failure/Error States:** [What happens if something goes wrong? e.g., Invalid input, API error]\n" ++
  "\n" ++
  "### ### Required UI Components\n" ++
  "List all new or modified UI elements needed to build this feature.\n" ++
  "- **Screens/Pages:** [List any new screens or pages required]\n" ++
  "- **Modals & Pop-ups:** [e.g., Confirmation modals, data entry pop-ups]\n" ++
  "- **Buttons:** [e.g., \x27Save\x27, \x27Cancel\x27, \x27Export Data\x27]\n" ++
  "- **Forms & Inputs:** [e.g., Text fields, dropdowns, checkboxes, date pickers]\n" ++
  "- **Notifications:** [e.g., \x27Success!\x27 toast, \x27Error saving data\x27 banner]\n" ++
  "- **Data Display:** [e.g., New tables, charts, list items]\n" ++
  "\n" ++
  "### ### User-Facing Text & Copy\n" ++
  "List all the text the user will see.\n" ++
  "- **Button Labels:** [e.g., \"Confirm Export\"]\n" ++
  "- **Headlines & Titles:** [e.g., \"Export Your Project Data\"]\n" ++
  "- **Instructional Text:** [e.g., \"Please select the format you wish to download.\"]\n" ++
  "- **Error Messages:** [e.g., \"The name field cannot be empty.\"]\n" ++
  "\n" ++
  "---\n" ++
  "## 3. Development Tasks & Technical Specifications\n" ++
  "This section is for the software development team.\n" ++
  "\n" ++
  "### ### Epic & User Stories\n" ++
  "Break the feature down into actionable user stories, grouped under a parent Epic.\n" ++
  "- **Epic:** [Overall goal, e.g., \"Implement Project Data Export Functionality\"]\n" ++
  "- **User Story 1 (e.g., Frontend Task):**\n" ++
  "    - **As a** [User Type], **I want to** [Action], **so that I can** [Benefit].\n" ++
  "    - **Acceptance Criteria:**\n" ++
  "        - [ ] Criterion 1 (e.g., When the user clicks the \x27Export\x27 button, a modal opens).\n" ++
  "        - [ ] Criterion 2 (e.g., The modal contains a dropdown with \x27PDF\x27 and \x27CSV\x27 options).\n" ++
  "        - [ ] Criterion 3 (e.g., The \x27Confirm Export\x27 button is disabled until an option is selected).\n" ++
  "- **User Story 2 (e.g., Backend Task):**\n" ++
  "    - **As a** [System/Developer], **I want to** [Action], **so that I can** [Benefit].\n" ++
  "    - **Acceptance Criteria:**\n" ++
  "        - [ ] Criterion 1 (e.g., A new API endpoint `POST /api/v1/projects/\x7bid\x7d/export` is created).\n" ++
  "        - [ ] Criterion 2 (e.g., The endpoint requires authenticated user session).\n" ++
  "        - [ ] Criterion 3 (e.g., The endpoint accepts a `format` parameter (\x27pdf\x27 or \x27csv\x27)).\n" ++
  "\n" ++
  "### ### Data Model Changes (If any)\n" ++
  "List any required changes to the database schema or data structures.\n" ++
  "- **Table:** [e.g., `Users`]\n" ++
  "  - **New Field:** `last_export_date` (Type: `datetime`, Nullable: `true`)\n" ++
  "- **Table:** [e.g., `ExportJobs`]\n" ++
  "  - **New Table:** To track export history.\n" ++
  "  - **Fields:** `id`, `user_id`, `file_format`, `status`, `created_at`.\n" ++
  "\n" ++
  "### ### Dependencies\n" ++
  "List any dependencies on other services, libraries, or environment variables.\n" ++
  "- **External Services:** [e.g., Requires access to AWS S3 bucket for storage]\n" ++
  "- **New Libraries:** [e.g., `PDFGenerator.js` for frontend, `pandas` for backend CSV creation]\n" ++
  "- **Environment Variables:** [e.g., `EXPORT_STORAGE_BUCKET_NAME`]\n" ++
  "\n" ++
  "---\n" ++
  "## 4. Quality Assurance (QA) Tasks & Test Plan\n" ++
  "This section is for the QA team to ensure the feature is bug-free and meets requirements.\n" ++
  "\n" ++
  "### ### Test Scenarios\n" ++
  "List high-level scenarios to be tested.\n" ++
  "- [ ] Verify that an authenticated user can successfully export data in all available formats.\n" ++
  "- [ ] Verify that UI components are rendered correctly on different screen sizes.\n" ++
  "- [ ] Verify that error handling works as expected for invalid user inputs.\n" ++
  "- [ ] Verify that unauthenticated or unauthorized users cannot access the feature.\n" ++
  "\n" ++
  "### ### Positive Test Cases\n" ++
  "List specific \"happy path\" test cases.\n" ++
  "- **Test Case ID:** TC-001\n" ++
  "- **Description:** User exports data as CSV.\n" ++
  "- **Steps:**\n" ++
  "    - 1. Log in as a standard user.\n" ++
  "    - 2. Navigate to the feature page.\n" ++
  "    - 3. Click \x27Export\x27.\n" ++
  "    - 4. Select \x27CSV\x27 from the dropdown.\n" ++
  "    - 5. Click \x27Confirm Export\x27.\n" ++
  "- **Expected Result:** A `.csv` file is downloaded, and a success notification is shown.\n" ++
  "\n" ++
  "### ### Negative Test Cases\n" ++
  "List specific \"unhappy path\" test cases.\n" ++
  "- **Test Case ID:** TC-002\n" ++
  "- **Description:** User tries to export without selecting a format.\n" ++
  "- **Steps:**\n" ++
  "    - 1. Log in as a standard user.\n" ++
  "    - 2. Navigate to the feature page.\n" ++
  "    - 3. Click \x27Export\x27.\n" ++
  "    - 4. Click \x27Confirm Export\x27 without selecting a format.\n" ++
  "- **Expected Result:** The \x27Confirm Export\x27 button should be disabled, or a validation message like \"Please select a format\" should appear.\n" ++
  "\n" ++
  "### ### Edge Cases\n" ++
  "List tests for unlikely but possible scenarios.\n" ++
  "- [ ] Test with a project that has no data to export.\n" ++
  "- [ ] Test by clicking the \x27Confirm Export\x27 button multiple times quickly.\n" ++
  "- [ ] Test with user accounts that have special characters in their names.\n" ++
  ""

/-- Role-tagged message entry, as in the messages list of the request and in
a completion of the response. -/
structure ChatMessage where
  role : String
  content : String
deriving DecidableEq

/-- One candidate completion of the provider response (response.choices[i]). -/
structure ChatChoice where
  message : ChatMessage
deriving DecidableEq

/-- Provider chat-completion response: a list of candidate completions. -/
structure ChatResponse where
  choices : List ChatChoice
deriving DecidableEq

/-- The request handed to client.chat.completions.create: deployment name,
ordered role-tagged messages, sampling temperature. -/
structure ChatRequest where
  model : String
  messages : List ChatMessage
  temperature : ℚ
deriving DecidableEq

/-- Parameters of the openai.AzureOpenAI client constructed in
get_ai_analysis (app.py lines 143-147). -/
structure AzureClientConfig where
  azure_endpoint : String
  api_key : String
  api_version : String
deriving DecidableEq

/-- The external provider: given a client configuration and a request it
either returns a response or raises an exception with description str(e). -/
abbrev ProviderCall : Type :=
  AzureClientConfig → ChatRequest → Except String ChatResponse

/-- Literal prefix of the st.error message in the except branch of
get_ai_analysis (app.py line 160). -/
def aiServiceErrorText : String :=
  "An error occurred while contacting the AI service: "

/-- Description of the Python IndexError raised by response.choices[0] when
the choices list is empty; it is caught by the same except block. -/
def indexOutOfRangeMsg : String := "list index out of range"

/-- Observable outcome of one call of get_ai_analysis: the returned value
(None on failure), the st.error messages displayed, and the trace of
requests issued to the provider. -/
structure GAOutput where
  result : Option String
  displayedErrors : List String
  issuedRequests : List (AzureClientConfig × ChatRequest)
deriving DecidableEq

/-- The client constructed in get_ai_analysis: endpoint and key come from
the caller, the api_version is the hardcoded literal of app.py line 146. -/
def azureClient (azure_endpoint api_key : String) : AzureClientConfig :=
  { azure_endpoint := azure_endpoint
    api_key := api_key
    api_version := "2024-02-15-preview" }

/-- The request built in get_ai_analysis (app.py lines 149-156): the fixed
system prompt, then the transcript as the user message, temperature 0.0. -/
def chatRequest (deployment_name transcript_text : String) : ChatRequest :=
  { model := deployment_name
    messages := [{ role := "system", content := HYPER_DETAILED_PROMPT },
                 { role := "user", content := transcript_text }]
    temperature := 0 }

/-- Embedding of get_ai_analysis (app.py lines 138-161).  The try block
issues one request; any exception (provider error, or the IndexError from
choices[0] on an empty choices list) is caught, displayed via st.error with
the original description appended, and None is returned. -/
def get_ai_analysis (call : ProviderCall)
    (transcript_text api_key azure_endpoint deployment_name : String) : GAOutput :=
  match call (azureClient azure_endpoint api_key)
      (chatRequest deployment_name transcript_text) with
  | .error e =>
      { result := none
        displayedErrors := [aiServiceErrorText ++ e]
        issuedRequests := [(azureClient azure_endpoint api_key,
                            chatRequest deployment_name transcript_text)] }
  | .ok resp =>
      match resp.choices with
      | [] =>
          { result := none
            displayedErrors := [aiServiceErrorText ++ indexOutOfRangeMsg]
            issuedRequests := [(azureClient azure_endpoint api_key,
                                chatRequest deployment_name transcript_text)] }
      | c :: _ =>
          { result := some c.message.content
            displayedErrors := []
            issuedRequests := [(azureClient azure_endpoint api_key,
                                chatRequest deployment_name transcript_text)] }

/-- Association-list lookup for string-valued entries of a secrets table. -/
def lookupStr : List (String × String) → String → Option String
  | [], _ => none
  | (k, v) :: rest, key => if k = key then some v else lookupStr rest key

/-- Association-list lookup for table-valued entries of the secrets store. -/
def lookupTable : List (String × List (String × String)) → String →
    Option (List (String × String))
  | [], _ => none
  | (k, v) :: rest, key => if k = key then some v else lookupTable rest key

/-- The external st.secrets store.  String-valued top-level entries (such as
a flat OPENAI_API_KEY) and table-valued sections (such as [azure_openai])
are kept apart; the module-level check reads only the azure_openai table. -/
structure SecretsSource where
  flat : List (String × String)
  tables : List (String × List (String × String))

/-- The st.error message of the except KeyError branch (app.py line 180). -/
def keyErrorMsg : String :=
  "Azure credentials are not set correctly. Make sure you have an [azure_openai] section in your secrets."

/-- The st.error message of the empty-value branch (app.py line 176). -/
def emptyErrorMsg : String :=
  "One or more Azure secrets are missing or empty. Please check your app settings."

/-- Outcome of the module-level secrets check: either st.stop after an
st.error with the given message, or the three resolved credential strings. -/
inductive SecretsCheckOutcome where
  | halted (msg : String)
  | ok (api_key endpoint deployment_name : String)
deriving DecidableEq

/-- Whether the secrets check produced credentials (did not halt). -/
def SecretsCheckOutcome.succeeded : SecretsCheckOutcome → Bool
  | .ok _ _ _ => true
  | .halted _ => false

/-- The three subscript reads of app.py lines 171-177 on the azure_openai
section: a missing key raises KeyError (caught at line 179), and when all
three are present the all([...]) truthiness test of line 175 sends any
empty value to the other st.error branch. -/
def checkKeys : Option String → Option String → Option String →
    SecretsCheckOutcome
  | none, _, _ => .halted keyErrorMsg
  | some _, none, _ => .halted keyErrorMsg
  | some _, some _, none => .halted keyErrorMsg
  | some k, some e, some d =>
      if k = "" || e = "" || d = "" then .halted emptyErrorMsg
      else .ok k e d

/-- Embedding of the module-level secrets check (app.py lines 169-181).
st.secrets["azure_openai"] raises KeyError when the section is absent,
landing in the except KeyError branch; the keys of the section are then
read as in checkKeys.  Both error branches halt via st.stop. -/
def secretsCheck (s : SecretsSource) : SecretsCheckOutcome :=
  match lookupTable s.tables "azure_openai" with
  | none => .halted keyErrorMsg
  | some sec =>
      checkKeys (lookupStr sec "api_key") (lookupStr sec "endpoint")
        (lookupStr sec "deployment_name")

/-- Lower bound for the second byte of a multi-byte UTF-8 sequence headed by
lead byte b (strict decoding, as Python bytes.decode("utf-8")). -/
def contLo (b : Nat) : Nat :=
  if b = 0xE0 then 0xA0 else if b = 0xF0 then 0x90 else 0x80

/-- Upper bound for the second byte of a multi-byte UTF-8 sequence headed by
lead byte b (rejecting surrogates and codepoints above U+10FFFF). -/
def contHi (b : Nat) : Nat :=
  if b = 0xED then 0x9F else if b = 0xF4 then 0x8F else 0xBF

/-- Whether b is a UTF-8 continuation byte. -/
def isCont (b : Nat) : Bool := decide (0x80 ≤ b) && decide (b ≤ 0xBF)

/-- Strict UTF-8 decoding of a byte list, as Python bytes.decode("utf-8"):
rejects stray continuation bytes, overlong encodings, surrogates, truncated
sequences and lead bytes above 0xF4.  none models a UnicodeDecodeError. -/
def utf8Decode : List Nat → Option (List Char)
  | [] => some []
  | b :: rest =>
    if b ≤ 0x7F then
      match utf8Decode rest with
      | some cs => some (Char.ofNat b :: cs)
      | none => none
    else if b ≤ 0xC1 then none
    else if b ≤ 0xDF then
      match rest with
      | b2 :: rest2 =>
        if isCont b2 then
          match utf8Decode rest2 with
          | some cs => some (Char.ofNat ((b - 0xC0) * 0x40 + (b2 - 0x80)) :: cs)
          | none => none
        else none
      | [] => none
    else if b ≤ 0xEF then
      match rest with
      | b2 :: b3 :: rest3 =>
        if decide (contLo b ≤ b2) && decide (b2 ≤ contHi b) && isCont b3 then
          match utf8Decode rest3 with
          | some cs =>
              some (Char.ofNat ((b - 0xE0) * 0x1000 + (b2 - 0x80) * 0x40 +
                (b3 - 0x80)) :: cs)
          | none => none
        else none
      | _ => none
    else if b ≤ 0xF4 then
      match rest with
      | b2 :: b3 :: b4 :: rest4 =>
        if decide (contLo b ≤ b2) && decide (b2 ≤ contHi b) && isCont b3 &&
            isCont b4 then
          match utf8Decode rest4 with
          | some cs =>
              some (Char.ofNat ((b - 0xF0) * 0x40000 + (b2 - 0x80) * 0x1000 +
                (b3 - 0x80) * 0x40 + (b4 - 0x80)) :: cs)
          | none => none
        else none
      | _ => none
    else none

/-- UTF-8 encoding of one character (str.encode on a single character). -/
def utf8EncodeChar (c : Char) : List Nat :=
  let n := c.toNat
  if n ≤ 0x7F then [n]
  else if n ≤ 0x7FF then [0xC0 + n / 0x40, 0x80 + n % 0x40]
  else if n ≤ 0xFFFF then
    [0xE0 + n / 0x1000, 0x80 + n / 0x40 % 0x40, 0x80 + n % 0x40]
  else
    [0xF0 + n / 0x40000, 0x80 + n / 0x1000 % 0x40, 0x80 + n / 0x40 % 0x40,
     0x80 + n % 0x40]

/-- UTF-8 encoding of a string, as analysis_result.encode on line 216. -/
def utf8Encode (s : String) : List Nat := (s.data.map utf8EncodeChar).flatten

/-- Wall-clock time observed by datetime.now() at result generation. -/
structure Timestamp where
  year : Nat
  month : Nat
  day : Nat
  hour : Nat
  minute : Nat
  second : Nat

/-- Zero-padded two-digit field of strftime. -/
def pad2 (n : Nat) : String := if n < 10 then "0" ++ toString n else toString n

/-- Zero-padded four-digit field of strftime (the year). -/
def pad4 (n : Nat) : String :=
  if n < 10 then "000" ++ toString n
  else if n < 100 then "00" ++ toString n
  else if n < 1000 then "0" ++ toString n
  else toString n

/-- strftime of app.py line 211, format YYYYMMDD underscore HHMMSS. -/
def strftimeYmdHMS (t : Timestamp) : String :=
  pad4 t.year ++ pad2 t.month ++ pad2 t.day ++ "_" ++ pad2 t.hour ++
    pad2 t.minute ++ pad2 t.second

/-- The byte stream offered by st.download_button (app.py lines 214-219). -/
structure DownloadArtifact where
  data : List Nat
  file_name : String
  mime : String
deriving DecidableEq

/-- Python truthiness of the analysis_result value at the gate of line 202:
None and the empty string are falsy, every other string is truthy. -/
def truthy : Option String → Bool
  | none => false
  | some s => !(s == "")

/-- Observables of one run of the module's UI flow. -/
structure AppResult where
  haltedAtConfig : Option String
  crashed : Option String
  displayedErrors : List String
  successBanner : Bool
  renderedResult : Option String
  download : Option DownloadArtifact
  issuedRequests : List (AzureClientConfig × ChatRequest)
deriving DecidableEq

/-- Run with nothing displayed, nothing issued, no halt and no crash. -/
def AppResult.base : AppResult :=
  { haltedAtConfig := none
    crashed := none
    displayedErrors := []
    successBanner := false
    renderedResult := none
    download := none
    issuedRequests := [] }

/-- Description of the uncaught Python exception raised by
uploaded_file.getvalue().decode("utf-8") on invalid UTF-8 input. -/
def unicodeDecodeErrorMsg : String := "UnicodeDecodeError"

/-- The display block of app.py lines 202-219 applied to one orchestrator
outcome: the truthiness gate on analysis_result, then st.success, the
markdown rendering in the expander, and the download button whose payload
is the UTF-8 encoding of the same string under the timestamped name. -/
def displayStage (out : GAOutput) (now : Timestamp) : AppResult :=
  if truthy out.result then
    { AppResult.base with
        successBanner := true
        renderedResult := out.result
        download := out.result.map (fun r =>
          { data := utf8Encode r
            file_name :=
              "Lighthouse_Requirements_" ++ strftimeYmdHMS now ++ ".txt"
            mime := "text/plain" })
        displayedErrors := out.displayedErrors
        issuedRequests := out.issuedRequests }
  else
    { AppResult.base with
        displayedErrors := out.displayedErrors
        issuedRequests := out.issuedRequests }

/-- The post-upload flow of app.py lines 190-219: the decode of line 191
runs as soon as a file is uploaded (outside every try block, so a failure
is an uncaught crash, not a displayed message), and the button press then
triggers one get_ai_analysis call followed by the display block. -/
def uploadStage (k e d : String) (bytes : List Nat) (buttonPressed : Bool)
    (call : ProviderCall) (now : Timestamp) : AppResult :=
  match utf8Decode bytes with
  | none => { AppResult.base with crashed := some unicodeDecodeErrorMsg }
  | some chars =>
      if buttonPressed then
        displayStage (get_ai_analysis call (String.mk chars) k e d) now
      else AppResult.base

/-- Embedding of the module-level flow of app.py lines 169-219: secrets
check first (halting on failure, before the upload widget and button
exist), then the post-upload flow for an uploaded byte payload. -/
def runApp (s : SecretsSource) (uploaded : Option (List Nat))
    (buttonPressed : Bool) (call : ProviderCall) (now : Timestamp) : AppResult :=
  match secretsCheck s with
  | .halted msg => { AppResult.base with haltedAtConfig := some msg }
  | .ok k e d =>
    match uploaded with
    | none => AppResult.base
    | some bytes => uploadStage k e d bytes buttonPressed call now

/-- Whether an optional secrets value is absent, or present but empty (the
two cases Python treats alike: KeyError on subscript, falsy in all([...])). -/
def absentOrEmpty : Option String → Bool
  | none => true
  | some v => v == ""

/-- Whether some credential required by the hosted provider is absent or
empty in the source: the azure_openai section itself, or one of its three
required keys. -/
def someRequiredCredentialMissing (s : SecretsSource) : Bool :=
  match lookupTable s.tables "azure_openai" with
  | none => true
  | some sec =>
      absentOrEmpty (lookupStr sec "api_key") ||
      absentOrEmpty (lookupStr sec "endpoint") ||
      absentOrEmpty (lookupStr sec "deployment_name")

/-- Boolean list-prefix test on characters. -/
def isPrefixL : List Char → List Char → Bool
  | [], _ => true
  | _ :: _, [] => false
  | a :: as, b :: bs => a == b && isPrefixL as bs

/-- Boolean substring test on character lists. -/
def containsSubL (n : List Char) : List Char → Bool
  | [] => isPrefixL n []
  | c :: t => isPrefixL n (c :: t) || containsSubL n t

/-- Boolean substring test on strings: does hay contain needle. -/
def strContainsSub (hay needle : String) : Bool :=
  containsSubL needle.data hay.data

/-- A configuration source providing only a flat standard-provider key. -/
def openaiOnlySource : SecretsSource :=
  { flat := [("OPENAI_API_KEY", "sk-test")], tables := [] }

/-- An azure_openai section holding the three keys the check reads, and no
api version entry. -/
def hostedSection : List (String × String) :=
  [("api_key", "secret-k"), ("endpoint", "https://tenant.example"),
   ("deployment_name", "gpt-4o")]

/-- A source whose azure_openai section is hostedSection. -/
def hostedNoVersionSource : SecretsSource :=
  { flat := [], tables := [("azure_openai", hostedSection)] }

/-- An azure_openai section providing endpoint and deployment name but no
API key. -/
def noKeySection : List (String × String) :=
  [("endpoint", "https://tenant.example"), ("deployment_name", "gpt-4o")]

/-- A source with the partial section: hosted endpoint and deployment name
present, API key absent. -/
def noKeySource : SecretsSource :=
  { flat := [], tables := [("azure_openai", noKeySection)] }

/-- An azure_openai section whose API key is present but empty. -/
def emptyKeySection : List (String × String) :=
  [("api_key", ""), ("endpoint", "https://tenant.example"),
   ("deployment_name", "gpt-4o")]

/-- A source with the empty-valued API key. -/
def emptyKeySource : SecretsSource :=
  { flat := [], tables := [("azure_openai", emptyKeySection)] }

/-- A provider oracle that always raises, with description of the error. -/
def alwaysFailCall : ProviderCall := fun _ _ => .error "auth failed"

/-- A provider oracle returning one completion with fixed text. -/
def stubOkCall : ProviderCall := fun _ _ =>
  .ok { choices := [{ message :=
    { role := "assistant", content := "## Final Changes" } }] }

/-- A provider oracle returning one completion whose text is empty. -/
def stubEmptyCall : ProviderCall := fun _ _ =>
  .ok { choices := [{ message := { role := "assistant", content := "" } }] }

/-- A fixed wall-clock instant used to instantiate runs. -/
def sampleTime : Timestamp :=
  { year := 2026, month := 10, day := 12, hour := 3, minute := 4, second := 5 }

/-- When the secrets check halts, the whole run shows only the halt: no
upload handling, no button, no request, nothing rendered. -/
theorem runApp_of_halted (s : SecretsSource) (msg : String)
    (h : secretsCheck s = .halted msg) (up : Option (List Nat)) (btn : Bool)
    (call : ProviderCall) (now : Timestamp) :
    runApp s up btn call now =
      { AppResult.base with haltedAtConfig := some msg } := by
  unfold runApp
  rw [h]

/-- The orchestrator issues exactly one request, the one built by
chatRequest against the client built by azureClient, whatever the provider
answers. -/
theorem issuedRequests_eq (call : ProviderCall) (t k ep d : String) :
    (get_ai_analysis call t k ep d).issuedRequests =
      [(azureClient ep k, chatRequest d t)] := by
  unfold get_ai_analysis
  cases call (azureClient ep k) (chatRequest d t) with
  | error e => rfl
  | ok resp =>
    obtain ⟨chs⟩ := resp
    cases chs with
    | nil => rfl
    | cons c rest => rfl

/-- On successful resolution, the run hands the post-upload flow the three
resolved credentials. -/
theorem runApp_of_ok (s : SecretsSource) (k e d : String) (bytes : List Nat)
    (btn : Bool) (call : ProviderCall) (now : Timestamp)
    (h : secretsCheck s = .ok k e d) :
    runApp s (some bytes) btn call now = uploadStage k e d bytes btn call now := by
  unfold runApp
  rw [h]

/-- On successful resolution with no upload, nothing happens. -/
theorem runApp_of_ok_none (s : SecretsSource) (k e d : String) (btn : Bool)
    (call : ProviderCall) (now : Timestamp) (h : secretsCheck s = .ok k e d) :
    runApp s none btn call now = AppResult.base := by
  unfold runApp
  rw [h]

/-- When the uploaded bytes are not valid UTF-8, the post-upload flow
crashes at the decode, before the button and before any provider call. -/
theorem uploadStage_decode_none (k e d : String) (bytes : List Nat)
    (btn : Bool) (call : ProviderCall) (now : Timestamp)
    (h : utf8Decode bytes = none) :
    uploadStage k e d bytes btn call now =
      { AppResult.base with crashed := some unicodeDecodeErrorMsg } := by
  unfold uploadStage
  rw [h]

/-- When the uploaded bytes decode, the post-upload flow proceeds with the
decoded transcript, gated on the button. -/
theorem uploadStage_decode_some (k e d : String) (bytes : List Nat)
    (chars : List Char) (btn : Bool) (call : ProviderCall) (now : Timestamp)
    (h : utf8Decode bytes = some chars) :
    uploadStage k e d bytes btn call now =
      if btn then
        displayStage (get_ai_analysis call (String.mk chars) k e d) now
      else AppResult.base := by
  unfold uploadStage
  rw [h]

/-- The orchestrator returns the first completion's text. -/
theorem result_of_ok (call : ProviderCall) (t k ep d : String)
    (resp : ChatResponse) (c : ChatChoice) (rest : List ChatChoice)
    (hcall : call (azureClient ep k) (chatRequest d t) = .ok resp)
    (hch : resp.choices = c :: rest) :
    (get_ai_analysis call t k ep d).result = some c.message.content := by
  unfold get_ai_analysis
  rw [hcall]
  obtain ⟨chs⟩ := resp
  simp only at hch
  rw [hch]

/-- C1 counterexample: on the configuration source holding only a flat
standard-provider key, resolution does not succeed (no standard-provider
fallback exists in the code: the check halts for lack of an azure_openai
section). -/
theorem c1_openai_key_only_does_not_succeed :
    (secretsCheck openaiOnlySource).succeeded = false := by rfl

/-- C1 (amended): for every configuration source with no azure_openai
section — in particular one providing only a standard-provider API key —
resolution fails with the configuration error naming that section; the code
has no standard-provider branch and no default model identifiers. -/
theorem c1_no_azure_section_halts (s : SecretsSource)
    (h : lookupTable s.tables "azure_openai" = none) :
    secretsCheck s = .halted keyErrorMsg := by
  unfold secretsCheck
  rw [h]

/-- C1 witness: the amended theorem applied to the standard-key-only
source. -/
theorem c1_no_azure_section_halts_witness :
    secretsCheck openaiOnlySource = .halted keyErrorMsg :=
  c1_no_azure_section_halts openaiOnlySource rfl

/-- C2: whenever a required credential (section, or any of api_key,
endpoint, deployment_name) is absent or empty-valued, the secrets check
halts with a configuration error, and the run issues no provider request;
empty strings fail exactly like absent keys, and partial presence halts
rather than proceeding. -/
theorem c2_missing_or_empty_credentials_halt (s : SecretsSource)
    (up : Option (List Nat)) (btn : Bool) (call : ProviderCall)
    (now : Timestamp) (h : someRequiredCredentialMissing s = true) :
    (∃ msg, secretsCheck s = .halted msg) ∧
    (runApp s up btn call now).issuedRequests = [] := by
  have hh : ∃ msg, secretsCheck s = .halted msg := by
    unfold someRequiredCredentialMissing at h
    unfold secretsCheck
    cases ht : lookupTable s.tables "azure_openai" with
    | none => exact ⟨keyErrorMsg, rfl⟩
    | some sec =>
      rw [ht] at h
      replace h : (absentOrEmpty (lookupStr sec "api_key") ||
          absentOrEmpty (lookupStr sec "endpoint") ||
          absentOrEmpty (lookupStr sec "deployment_name")) = true := h
      show ∃ msg, checkKeys (lookupStr sec "api_key")
        (lookupStr sec "endpoint") (lookupStr sec "deployment_name") =
        .halted msg
      cases hk : lookupStr sec "api_key" with
      | none => exact ⟨keyErrorMsg, by simp [checkKeys]⟩
      | some k =>
        rw [hk] at h
        cases he : lookupStr sec "endpoint" with
        | none => exact ⟨keyErrorMsg, by simp [checkKeys]⟩
        | some e =>
          rw [he] at h
          cases hd : lookupStr sec "deployment_name" with
          | none => exact ⟨keyErrorMsg, by simp [checkKeys]⟩
          | some d =>
            rw [hd] at h
            simp only [absentOrEmpty, Bool.or_eq_true, beq_iff_eq] at h
            refine ⟨emptyErrorMsg, ?_⟩
            rcases h with (h | h) | h <;> simp [checkKeys, h]
  obtain ⟨msg, hmsg⟩ := hh
  refine ⟨⟨msg, hmsg⟩, ?_⟩
  rw [runApp_of_halted s msg hmsg up btn call now]
  rfl

/-- C2 witness: the theorem applied to the source whose section has the
endpoint and the deployment name but no API key. -/
theorem c2_missing_or_empty_credentials_halt_witness :
    (∃ msg, secretsCheck noKeySource = .halted msg) ∧
    (runApp noKeySource (some [104, 105]) true alwaysFailCall
      sampleTime).issuedRequests = [] :=
  c2_missing_or_empty_credentials_halt noKeySource (some [104, 105]) true
    alwaysFailCall sampleTime rfl

/-- C3: when the provider call raises an error with description ed, the
orchestrator (a total function: no exception escapes it) returns None and
displays exactly one message, which contains ed as a substring. -/
theorem c3_provider_error_caught (call : ProviderCall)
    (t k ep d ed : String)
    (h : call (azureClient ep k) (chatRequest d t) = .error ed) :
    (get_ai_analysis call t k ep d).result = none ∧
    ∃ pre post, (get_ai_analysis call t k ep d).displayedErrors =
      [pre ++ ed ++ post] := by
  unfold get_ai_analysis
  rw [h]
  exact ⟨rfl, aiServiceErrorText, "", by simp⟩

/-- C3 witness: the theorem applied to the always-raising provider. -/
theorem c3_provider_error_caught_witness :
    (get_ai_analysis alwaysFailCall "hello" "k" "https://x" "dep").result =
      none ∧
    ∃ pre post,
      (get_ai_analysis alwaysFailCall "hello" "k" "https://x" "dep").displayedErrors =
        [pre ++ "auth failed" ++ post] :=
  c3_provider_error_caught alwaysFailCall "hello" "k" "https://x" "dep"
    "auth failed" rfl

/-- C4: when the provider call returns a response whose first completion
carries text c.message.content, the orchestrator returns exactly that text,
unchanged. -/
theorem c4_success_verbatim (call : ProviderCall) (t k ep d : String)
    (resp : ChatResponse) (c : ChatChoice) (rest : List ChatChoice)
    (hcall : call (azureClient ep k) (chatRequest d t) = .ok resp)
    (hch : resp.choices = c :: rest) :
    (get_ai_analysis call t k ep d).result = some c.message.content := by
  unfold get_ai_analysis
  rw [hcall]
  obtain ⟨chs⟩ := resp
  simp only at hch
  rw [hch]

/-- C4 witness: the theorem applied to the stub provider returning one
completion with fixed text. -/
theorem c4_success_verbatim_witness :
    (get_ai_analysis stubOkCall "hi" "k" "https://x" "dep").result =
      some "## Final Changes" :=
  c4_success_verbatim stubOkCall "hi" "k" "https://x" "dep"
    { choices := [{ message :=
        { role := "assistant", content := "## Final Changes" } }] }
    { message := { role := "assistant", content := "## Final Changes" } }
    [] rfl rfl

/-- C5: for every transcript and credentials the orchestrator issues
exactly one request, carrying exactly two messages — the system role with
the fixed prompt constant (independent of the transcript), then the user
role with the transcript — at sampling temperature 0. -/
theorem c5_single_request_two_messages (call : ProviderCall)
    (t k ep d : String) :
    (get_ai_analysis call t k ep d).issuedRequests =
      [(azureClient ep k,
        { model := d
          messages := [{ role := "system", content := HYPER_DETAILED_PROMPT },
                       { role := "user", content := t }]
          temperature := 0 })] := by
  rw [issuedRequests_eq]
  unfold chatRequest
  rfl

/-- C6 counterexample: the azure_openai section of hostedNoVersionSource
holds no API version at all, yet resolution succeeds — the claim that the
resolver requires the API version from the configuration source is false. -/
theorem c6_no_api_version_still_succeeds :
    (lookupTable hostedNoVersionSource.tables "azure_openai").bind
      (fun sec => lookupStr sec "api_version") = none ∧
    secretsCheck hostedNoVersionSource =
      .ok "secret-k" "https://tenant.example" "gpt-4o" :=
  ⟨rfl, rfl⟩

/-- C6 (amended): when the azure_openai section provides the endpoint and
the deployment name, resolution additionally requires the API key from the
configuration source — absent halts with the KeyError message, empty halts
with the empty-value message — and on success every request issued by the
orchestrator uses the fixed API version literal of the code, not a
configured value. -/
theorem c6_hosted_selection_requires_key (s : SecretsSource)
    (sec : List (String × String)) (e d : String)
    (hs : lookupTable s.tables "azure_openai" = some sec)
    (he : lookupStr sec "endpoint" = some e)
    (hd : lookupStr sec "deployment_name" = some d) :
    (lookupStr sec "api_key" = none →
      secretsCheck s = .halted keyErrorMsg) ∧
    (lookupStr sec "api_key" = some "" →
      secretsCheck s = .halted emptyErrorMsg) ∧
    (∀ k, lookupStr sec "api_key" = some k → k ≠ "" → e ≠ "" → d ≠ "" →
      secretsCheck s = .ok k e d ∧
      ∀ t call, ((get_ai_analysis call t k e d).issuedRequests.map
        (fun p => p.1.api_version)) = ["2024-02-15-preview"]) := by
  have hc : secretsCheck s = checkKeys (lookupStr sec "api_key")
      (lookupStr sec "endpoint") (lookupStr sec "deployment_name") := by
    unfold secretsCheck
    rw [hs]
  refine ⟨?_, ?_, ?_⟩
  · intro hk
    rw [hc, hk, he, hd]
    rfl
  · intro hk
    rw [hc, hk, he, hd]
    rfl
  · intro k hk hk0 he0 hd0
    constructor
    · rw [hc, hk, he, hd]
      simp [checkKeys, hk0, he0, hd0]
    · intro t call
      rw [issuedRequests_eq]
      rfl

/-- C6 witness: the amended theorem applied to the source whose section
holds all three keys and no API version. -/
theorem c6_hosted_selection_requires_key_witness :
    (lookupStr hostedSection "api_key" = none →
      secretsCheck hostedNoVersionSource = .halted keyErrorMsg) ∧
    (lookupStr hostedSection "api_key" = some "" →
      secretsCheck hostedNoVersionSource = .halted emptyErrorMsg) ∧
    (∀ k, lookupStr hostedSection "api_key" = some k → k ≠ "" →
      "https://tenant.example" ≠ "" → "gpt-4o" ≠ "" →
      secretsCheck hostedNoVersionSource =
        .ok k "https://tenant.example" "gpt-4o" ∧
      ∀ t call,
        ((get_ai_analysis call t k "https://tenant.example" "gpt-4o").issuedRequests.map
          (fun p => p.1.api_version)) = ["2024-02-15-preview"]) :=
  c6_hosted_selection_requires_key hostedNoVersionSource hostedSection
    "https://tenant.example" "gpt-4o" rfl rfl rfl

/-- C7 counterexample: with the API key present but empty, resolution halts
with the empty-value message, and that message names neither the required
configuration section nor any of the required keys. -/
theorem c7_empty_value_message_names_no_keys :
    secretsCheck emptyKeySource = .halted emptyErrorMsg ∧
    strContainsSub emptyErrorMsg "azure_openai" = false ∧
    strContainsSub emptyErrorMsg "api_key" = false ∧
    strContainsSub emptyErrorMsg "endpoint" = false ∧
    strContainsSub emptyErrorMsg "deployment_name" = false := by
  refine ⟨rfl, ?_, ?_, ?_, ?_⟩ <;> decide

/-- C7 (amended): on every resolution failure a human-readable message is
surfaced — the missing-section message, which names the required
azure_openai section, or the generic empty-value message, which names no
individual key — and the run halts with nothing else: no upload handling,
no request, no rendering, no download. -/
theorem c7_failure_halts_everything (s : SecretsSource) (msg : String)
    (up : Option (List Nat)) (btn : Bool) (call : ProviderCall)
    (now : Timestamp) (h : secretsCheck s = .halted msg) :
    (msg = keyErrorMsg ∨ msg = emptyErrorMsg) ∧
    strContainsSub keyErrorMsg "azure_openai" = true ∧
    runApp s up btn call now =
      { AppResult.base with haltedAtConfig := some msg } := by
  refine ⟨?_, by decide, runApp_of_halted s msg h up btn call now⟩
  unfold secretsCheck at h
  cases ht : lookupTable s.tables "azure_openai" with
  | none =>
    rw [ht] at h
    replace h : SecretsCheckOutcome.halted keyErrorMsg = .halted msg := h
    injection h with h
    exact Or.inl h.symm
  | some sec =>
    rw [ht] at h
    replace h : checkKeys (lookupStr sec "api_key") (lookupStr sec "endpoint")
        (lookupStr sec "deployment_name") = .halted msg := h
    cases hk : lookupStr sec "api_key" with
    | none =>
      rw [hk] at h
      simp only [checkKeys, SecretsCheckOutcome.halted.injEq] at h
      exact Or.inl h.symm
    | some k =>
      rw [hk] at h
      cases he : lookupStr sec "endpoint" with
      | none =>
        rw [he] at h
        simp only [checkKeys, SecretsCheckOutcome.halted.injEq] at h
        exact Or.inl h.symm
      | some e =>
        rw [he] at h
        cases hd : lookupStr sec "deployment_name" with
        | none =>
          rw [hd] at h
          simp only [checkKeys, SecretsCheckOutcome.halted.injEq] at h
          exact Or.inl h.symm
        | some d =>
          rw [hd] at h
          simp only [checkKeys] at h
          split at h
          · injection h with h
            exact Or.inr h.symm
          · exact SecretsCheckOutcome.noConfusion h

/-- C7 witness: the amended theorem applied to the empty-key source. -/
theorem c7_failure_halts_everything_witness :
    (emptyErrorMsg = keyErrorMsg ∨ emptyErrorMsg = emptyErrorMsg) ∧
    strContainsSub keyErrorMsg "azure_openai" = true ∧
    runApp emptyKeySource none false alwaysFailCall sampleTime =
      { AppResult.base with haltedAtConfig := some emptyErrorMsg } :=
  c7_failure_halts_everything emptyKeySource emptyErrorMsg none false
    alwaysFailCall sampleTime rfl

/-- C8: whenever a run renders a result string, the same run shows the
success banner and offers a download whose bytes are exactly the UTF-8
encoding of the rendered string, under the timestamped
Lighthouse_Requirements name with MIME type text/plain. -/
theorem c8_download_matches_rendered (s : SecretsSource)
    (up : Option (List Nat)) (btn : Bool) (call : ProviderCall)
    (now : Timestamp) (r : String)
    (h : (runApp s up btn call now).renderedResult = some r) :
    (runApp s up btn call now).successBanner = true ∧
    (runApp s up btn call now).download = some
      { data := utf8Encode r
        file_name := "Lighthouse_Requirements_" ++ strftimeYmdHMS now ++ ".txt"
        mime := "text/plain" } := by
  cases hsc : secretsCheck s with
  | halted msg =>
    rw [runApp_of_halted s msg hsc up btn call now] at h
    exact absurd h (by simp [AppResult.base])
  | ok k e d =>
    cases up with
    | none =>
      rw [runApp_of_ok_none s k e d btn call now hsc] at h
      exact absurd h (by simp [AppResult.base])
    | some bytes =>
      rw [runApp_of_ok s k e d bytes btn call now hsc] at h ⊢
      cases hdec : utf8Decode bytes with
      | none =>
        rw [uploadStage_decode_none k e d bytes btn call now hdec] at h
        exact absurd h (by simp [AppResult.base])
      | some chars =>
        rw [uploadStage_decode_some k e d bytes chars btn call now hdec] at h ⊢
        cases btn with
        | false => simp [AppResult.base] at h
        | true =>
          unfold displayStage at h ⊢
          cases htr : truthy (get_ai_analysis call (String.mk chars) k e d).result with
          | false =>
            rw [htr] at h
            simp [AppResult.base] at h
          | true =>
            rw [htr] at h
            replace h : (get_ai_analysis call (String.mk chars) k e d).result =
                some r := h
            refine ⟨rfl, ?_⟩
            show Option.map _
              ((get_ai_analysis call (String.mk chars) k e d).result) = _
            rw [h]
            rfl

/-- C8 witness: an end-to-end successful run with the stub provider. -/
theorem c8_download_matches_rendered_witness :
    (runApp hostedNoVersionSource (some [104, 105]) true stubOkCall
      sampleTime).successBanner = true ∧
    (runApp hostedNoVersionSource (some [104, 105]) true stubOkCall
      sampleTime).download = some
      { data := utf8Encode "## Final Changes"
        file_name :=
          "Lighthouse_Requirements_" ++ strftimeYmdHMS sampleTime ++ ".txt"
        mime := "text/plain" } :=
  c8_download_matches_rendered hostedNoVersionSource (some [104, 105]) true
    stubOkCall sampleTime "## Final Changes" rfl

/-- C9: when the provider call succeeds but the first completion's text is
the empty string, the display layer takes the failure path — no success
banner, nothing rendered, no download — because the truthiness gate of
line 202 evaluates the empty string exactly like None. -/
theorem c9_empty_result_fails_display (s : SecretsSource) (bytes : List Nat)
    (chars : List Char) (k e d : String) (call : ProviderCall)
    (now : Timestamp) (resp : ChatResponse) (c : ChatChoice)
    (rest : List ChatChoice)
    (hsc : secretsCheck s = .ok k e d)
    (hdec : utf8Decode bytes = some chars)
    (hcall : call (azureClient e k) (chatRequest d (String.mk chars)) = .ok resp)
    (hch : resp.choices = c :: rest)
    (hc : c.message.content = "") :
    ((runApp s (some bytes) true call now).successBanner = false ∧
     (runApp s (some bytes) true call now).renderedResult = none ∧
     (runApp s (some bytes) true call now).download = none) ∧
    truthy (get_ai_analysis call (String.mk chars) k e d).result =
      truthy none := by
  have hres : (get_ai_analysis call (String.mk chars) k e d).result =
      some "" := by
    rw [result_of_ok call (String.mk chars) k e d resp c rest hcall hch, hc]
  have htr : truthy (get_ai_analysis call (String.mk chars) k e d).result =
      false := by
    rw [hres]
    rfl
  refine ⟨?_, by rw [htr]; rfl⟩
  rw [runApp_of_ok s k e d bytes true call now hsc,
    uploadStage_decode_some k e d bytes chars true call now hdec]
  simp only [if_true]
  unfold displayStage
  rw [htr]
  exact ⟨rfl, rfl, rfl⟩

/-- C9 witness: the theorem applied to the stub provider whose single
completion is empty. -/
theorem c9_empty_result_fails_display_witness :
    ((runApp hostedNoVersionSource (some [104, 105]) true stubEmptyCall
        sampleTime).successBanner = false ∧
     (runApp hostedNoVersionSource (some [104, 105]) true stubEmptyCall
        sampleTime).renderedResult = none ∧
     (runApp hostedNoVersionSource (some [104, 105]) true stubEmptyCall
        sampleTime).download = none) ∧
    truthy (get_ai_analysis stubEmptyCall (String.mk ['h', 'i']) "secret-k"
        "https://tenant.example" "gpt-4o").result = truthy none :=
  c9_empty_result_fails_display hostedNoVersionSource [104, 105] ['h', 'i']
    "secret-k" "https://tenant.example" "gpt-4o" stubEmptyCall sampleTime
    { choices := [{ message := { role := "assistant", content := "" } }] }
    { message := { role := "assistant", content := "" } } []
    rfl rfl rfl rfl rfl

/-- C10: with valid credentials, invalid UTF-8 upload bytes crash the run
at the decode — an uncaught error, with no displayed failure message and no
provider request — while valid UTF-8 bytes never crash and, once the button
is pressed, the request carries exactly the decoded transcript. -/
theorem c10_decode_outside_error_boundary (s : SecretsSource)
    (k e d : String) (bytes : List Nat) (btn : Bool) (call : ProviderCall)
    (now : Timestamp) (hsc : secretsCheck s = .ok k e d) :
    (utf8Decode bytes = none →
      (runApp s (some bytes) btn call now).crashed =
        some unicodeDecodeErrorMsg ∧
      (runApp s (some bytes) btn call now).displayedErrors = [] ∧
      (runApp s (some bytes) btn call now).issuedRequests = []) ∧
    (∀ chars, utf8Decode bytes = some chars →
      (runApp s (some bytes) btn call now).crashed = none ∧
      (btn = true →
        (runApp s (some bytes) btn call now).issuedRequests =
          [(azureClient e k, chatRequest d (String.mk chars))])) := by
  rw [runApp_of_ok s k e d bytes btn call now hsc]
  constructor
  · intro hdec
    rw [uploadStage_decode_none k e d bytes btn call now hdec]
    exact ⟨rfl, rfl, rfl⟩
  · intro chars hdec
    rw [uploadStage_decode_some k e d bytes chars btn call now hdec]
    constructor
    · cases btn with
      | false => rfl
      | true =>
        unfold displayStage
        cases htr : truthy (get_ai_analysis call (String.mk chars) k e d).result with
        | false => rfl
        | true => rfl
    · intro hbtn
      subst hbtn
      unfold displayStage
      cases htr : truthy (get_ai_analysis call (String.mk chars) k e d).result with
      | false => exact issuedRequests_eq call (String.mk chars) k e d
      | true => exact issuedRequests_eq call (String.mk chars) k e d

/-- C10 witness: the theorem applied to a lone invalid byte 0xFF. -/
theorem c10_decode_outside_error_boundary_witness :
    (utf8Decode [255] = none →
      (runApp hostedNoVersionSource (some [255]) true alwaysFailCall
        sampleTime).crashed = some unicodeDecodeErrorMsg ∧
      (runApp hostedNoVersionSource (some [255]) true alwaysFailCall
        sampleTime).displayedErrors = [] ∧
      (runApp hostedNoVersionSource (some [255]) true alwaysFailCall
        sampleTime).issuedRequests = []) ∧
    (∀ chars, utf8Decode [255] = some chars →
      (runApp hostedNoVersionSource (some [255]) true alwaysFailCall
        sampleTime).crashed = none ∧
      (true = true →
        (runApp hostedNoVersionSource (some [255]) true alwaysFailCall
          sampleTime).issuedRequests =
          [(azureClient "https://tenant.example" "secret-k",
            chatRequest "gpt-4o" (String.mk chars))])) :=
  c10_decode_outside_error_boundary hostedNoVersionSource "secret-k"
    "https://tenant.example" "gpt-4o" [255] true alwaysFailCall sampleTime rfl

end AIPM
